import Mathlib

/-!
Shallow embedding of the fitness progression core of this repository:
the `Milestone`, `Tier` and `TierConfiguration` models and the
`ProgressionService` engine, translated from the JavaScript source.

Numeric conventions of the embedding:
* JavaScript numbers holding counters and indices (`progress`,
  `requiredWorkouts`, array lengths, tier levels) are embedded as `Nat`;
  they are only ever created from non-negative literals and moved by
  `Math.min`/`+1`, so no overflow or sign issue arises.
* Fractional arithmetic (the weighted tier percentage) is embedded as
  exact rationals `ℚ`.  `Math.ceil(n * 0.15)` is embedded as
  `⌈(n : ℚ) * (15 / 100)⌉`: for every `n < 1000` (far above every
  catalog value, which is at most 75) the IEEE-754 double computation
  `Math.ceil(n * 0.15)` agrees with the exact rational ceiling, so the
  embedding is faithful on the range the program uses.
* The one place where the source can divide by zero
  (`Milestone.progressPercent` in cumulative mode) is embedded with an
  explicit JavaScript-number model `JsNum` carrying `NaN` and the two
  infinities, so that the zero-divisor behaviour of the source is
  preserved rather than idealised away.
-/

namespace F17n355

/-- A JavaScript number as needed by `Milestone.progressPercent`:
an exact rational, `NaN`, or an infinity. -/
inductive JsNum where
  | num (q : ℚ)
  | nan
  | posInf
  | negInf
deriving DecidableEq, Repr

/-- JavaScript division `a / b` on numbers: division by zero yields
`NaN` when the numerator is zero and a signed infinity otherwise. -/
def jsDiv (a b : ℚ) : JsNum :=
  if b = 0 then
    if a = 0 then JsNum.nan
    else if 0 < a then JsNum.posInf
    else JsNum.negInf
  else JsNum.num (a / b)

/-- JavaScript multiplication of a number by a positive constant
(only used with the constant `100`). -/
def JsNum.mulPos (x : JsNum) (c : ℚ) : JsNum :=
  match x with
  | JsNum.num q => JsNum.num (q * c)
  | JsNum.nan => JsNum.nan
  | JsNum.posInf => JsNum.posInf
  | JsNum.negInf => JsNum.negInf

/-- JavaScript `Math.min(100, x)`: `NaN` is absorbing, `Infinity`
clamps to `100`, `-Infinity` stays. -/
def jsMin100 (x : JsNum) : JsNum :=
  match x with
  | JsNum.num q => JsNum.num (min 100 q)
  | JsNum.nan => JsNum.nan
  | JsNum.posInf => JsNum.num 100
  | JsNum.negInf => JsNum.negInf

/-- One entry of a milestone's `workoutRequirements` list
(`{workoutType, reps, timeMinutes}`). -/
structure WorkoutRequirement where
  workoutType : String
  reps : Nat
  timeMinutes : Nat
deriving DecidableEq, Repr

/-- One exercise inside a benchmark workout (`{workoutType, reps}`). -/
structure BenchmarkExercise where
  workoutType : String
  reps : Nat
deriving DecidableEq, Repr

/-- One entry of a milestone's `benchmarkWorkouts` list
(`{name, exercises, timeCapMinutes}`). -/
structure BenchmarkWorkout where
  name : String
  exercises : List BenchmarkExercise
  timeCapMinutes : Nat
deriving DecidableEq, Repr

/-- The `Milestone` model (src/js/models/Milestone.js).  The milestone
type tags (`bronze` … `diamond`) are plain strings, as in the source. -/
structure Milestone where
  type : String
  name : String
  requiredWorkouts : Nat
  workoutRequirements : List WorkoutRequirement
  benchmarkWorkouts : List BenchmarkWorkout
  progress : Nat
  benchmarksCompleted : List Nat
deriving DecidableEq, Repr

/-- `new Milestone(type, name, requiredWorkouts, workoutRequirements,
benchmarkWorkouts)`: progress starts at `0`, no benchmarks completed. -/
def Milestone.new (type name : String) (requiredWorkouts : Nat)
    (workoutRequirements : List WorkoutRequirement)
    (benchmarkWorkouts : List BenchmarkWorkout) : Milestone :=
  ⟨type, name, requiredWorkouts, workoutRequirements, benchmarkWorkouts, 0, []⟩

/-- `usesBenchmarks`: true iff `benchmarkWorkouts` is non-empty. -/
def Milestone.usesBenchmarks (m : Milestone) : Bool :=
  m.benchmarkWorkouts.length > 0

/-- `isCompleted`: benchmark mode compares completed benchmarks against
the benchmark list length, cumulative mode compares `progress` against
`requiredWorkouts`. -/
def Milestone.isCompleted (m : Milestone) : Bool :=
  if m.usesBenchmarks then
    m.benchmarksCompleted.length ≥ m.benchmarkWorkouts.length
  else
    m.progress ≥ m.requiredWorkouts

/-- `progressPercent` of a milestone, with exact JavaScript-number
semantics: the cumulative branch divides by `requiredWorkouts` without
a zero guard, so `requiredWorkouts = 0` produces `NaN` (progress `0`)
or a clamped `100` (progress positive). -/
def Milestone.progressPercent (m : Milestone) : JsNum :=
  if m.usesBenchmarks then
    if m.benchmarkWorkouts.length = 0 then JsNum.num 0
    else
      jsMin100 (JsNum.mulPos
        (jsDiv (m.benchmarksCompleted.length : ℚ) (m.benchmarkWorkouts.length : ℚ)) 100)
  else
    jsMin100 (JsNum.mulPos (jsDiv (m.progress : ℚ) (m.requiredWorkouts : ℚ)) 100)

/-- `addProgress(count)`: clamp at `requiredWorkouts`; returns the
updated milestone together with the returned completion flag. -/
def Milestone.addProgress (m : Milestone) (count : Nat) : Milestone × Bool :=
  let m' := { m with progress := min (m.progress + count) m.requiredWorkouts }
  (m', m'.isCompleted)

/-- `completeBenchmark(benchmarkIndex)`: push the index onto
`benchmarksCompleted` unless it is already present; returns the updated
milestone together with the returned completion flag. -/
def Milestone.completeBenchmark (m : Milestone) (benchmarkIndex : Nat) :
    Milestone × Bool :=
  let m' :=
    if m.benchmarksCompleted.contains benchmarkIndex then m
    else { m with benchmarksCompleted := m.benchmarksCompleted ++ [benchmarkIndex] }
  (m', m'.isCompleted)

/-- `acceptsWorkoutType(workoutType)`: an empty requirement list
accepts every workout type, otherwise some entry must match. -/
def Milestone.acceptsWorkoutType (m : Milestone) (workoutType : String) : Bool :=
  if m.workoutRequirements.length = 0 then true
  else m.workoutRequirements.any (fun req => req.workoutType == workoutType)

/-- `reset()`: zero the progress and clear the completed benchmarks. -/
def Milestone.reset (m : Milestone) : Milestone :=
  { m with progress := 0, benchmarksCompleted := [] }

/-- The plain object produced by `Milestone.toJSON` (all fields are
always present in the serialized form). -/
structure MilestoneJSON where
  type : String
  name : String
  requiredWorkouts : Nat
  workoutRequirements : List WorkoutRequirement
  benchmarkWorkouts : List BenchmarkWorkout
  progress : Nat
  benchmarksCompleted : List Nat
deriving DecidableEq, Repr

/-- `Milestone.toJSON`. -/
def Milestone.toJSON (m : Milestone) : MilestoneJSON :=
  ⟨m.type, m.name, m.requiredWorkouts, m.workoutRequirements,
    m.benchmarkWorkouts, m.progress, m.benchmarksCompleted⟩

/-- `Milestone.fromJSON`.  The source's fallbacks
(`data.workoutRequirements || []`, `data.progress || 0`, …) are
identities on the always-present serialized fields: in JavaScript an
empty array is truthy and `0 || 0` is `0`. -/
def Milestone.fromJSON (data : MilestoneJSON) : Milestone :=
  ⟨data.type, data.name, data.requiredWorkouts, data.workoutRequirements,
    data.benchmarkWorkouts, data.progress, data.benchmarksCompleted⟩

/-- The `Tier` model (src/js/models/Tier.js): a progression level with
its ordered list of milestones. -/
structure Tier where
  level : Nat
  name : String
  milestones : List Milestone
deriving DecidableEq, Repr

/-- `completedMilestones`: the number of completed milestones. -/
def Tier.completedMilestones (t : Tier) : Nat :=
  (t.milestones.filter (fun m => m.isCompleted)).length

/-- `totalMilestones`. -/
def Tier.totalMilestones (t : Tier) : Nat :=
  t.milestones.length

/-- `Tier.isCompleted`: every milestone is completed. -/
def Tier.isCompleted (t : Tier) : Bool :=
  t.milestones.all (fun m => m.isCompleted)

/-- The weight of a benchmark-mode milestone in the tier percentage:
`Math.ceil(requiredWorkouts * 0.15)` (exact on the program's range,
see the header note). -/
def benchmarkWeight (requiredWorkouts : Nat) : ℚ :=
  ((⌈(requiredWorkouts : ℚ) * (15 / 100)⌉ : ℤ) : ℚ)

/-- `getTotalWorkoutsNeeded()`: `reduce` over the milestones, adding
`requiredWorkouts` for a cumulative milestone and the 15% ceiling
weight for a benchmark milestone. -/
def Tier.getTotalWorkoutsNeeded (t : Tier) : ℚ :=
  t.milestones.foldl
    (fun sum milestone =>
      if milestone.usesBenchmarks then
        sum + benchmarkWeight milestone.requiredWorkouts
      else
        sum + (milestone.requiredWorkouts : ℚ))
    0

/-- `getTotalWorkoutsCompleted()`: `reduce` over the milestones, adding
`progress` for a cumulative milestone and the completed-benchmark
fraction of the 15% weight for a benchmark milestone. -/
def Tier.getTotalWorkoutsCompleted (t : Tier) : ℚ :=
  t.milestones.foldl
    (fun sum milestone =>
      if milestone.usesBenchmarks then
        sum + ((milestone.benchmarksCompleted.length : ℚ) /
            (milestone.benchmarkWorkouts.length : ℚ)) *
            benchmarkWeight milestone.requiredWorkouts
      else
        sum + (milestone.progress : ℚ))
    0

/-- `Tier.progressPercent`: `0` when nothing is needed, otherwise the
completed/needed ratio as a percentage clamped to `100`.  (Inside the
benchmark branch of the sums the divisor `benchmarkWorkouts.length` is
positive because `usesBenchmarks` holds, so plain rational arithmetic
is faithful here.) -/
def Tier.progressPercent (t : Tier) : ℚ :=
  if t.getTotalWorkoutsNeeded = 0 then 0
  else min 100 (t.getTotalWorkoutsCompleted / t.getTotalWorkoutsNeeded * 100)

/-- `findMilestoneByType(type)`: first milestone with the given type. -/
def Tier.findMilestoneByType (t : Tier) (type : String) : Option Milestone :=
  t.milestones.find? (fun m => m.type == type)

/-- `resetProgress()`: reset every milestone. -/
def Tier.resetProgress (t : Tier) : Tier :=
  { t with milestones := t.milestones.map Milestone.reset }

/-- The plain object produced by `Tier.toJSON`. -/
structure TierJSON where
  level : Nat
  name : String
  milestones : List MilestoneJSON
deriving DecidableEq, Repr

/-- `Tier.toJSON`. -/
def Tier.toJSON (t : Tier) : TierJSON :=
  ⟨t.level, t.name, t.milestones.map Milestone.toJSON⟩

/-- `Tier.fromJSON`. -/
def Tier.fromJSON (data : TierJSON) : Tier :=
  ⟨data.level, data.name, data.milestones.map Milestone.fromJSON⟩

/-- Tier 0 of `_createDefaultTiers` ("Beginner"). -/
def beginnerTier : Tier :=
  Tier.mk 0 "Beginner"
    [ Milestone.new "bronze" "First Steps" 5
        [⟨"Walking", 15, 30⟩, ⟨"Stretching", 10, 15⟩] [],
      Milestone.new "silver" "Getting Moving" 10
        [⟨"Walking", 20, 30⟩, ⟨"Yoga", 15, 20⟩, ⟨"Stretching", 10, 15⟩] [],
      Milestone.new "gold" "Building Momentum" 15
        [⟨"Running", 20, 25⟩, ⟨"Cycling", 30, 30⟩, ⟨"Swimming", 20, 30⟩] [],
      Milestone.new "platinum" "Consistent" 20 []
        [ ⟨"Endurance Challenge", [⟨"Running", 30⟩, ⟨"Push-ups", 20⟩], 40⟩,
          ⟨"Flexibility Test", [⟨"Yoga", 25⟩, ⟨"Stretching", 15⟩], 35⟩ ],
      Milestone.new "diamond" "Habit Formed" 30 []
        [ ⟨"Beginner Mastery",
            [⟨"Running", 40⟩, ⟨"Push-ups", 30⟩, ⟨"Squats", 30⟩], 45⟩,
          ⟨"Cardio Foundation",
            [⟨"Cycling", 50⟩, ⟨"Jumping Rope", 100⟩], 50⟩ ] ]

/-- Tier 1 of `_createDefaultTiers` ("Novice"). -/
def noviceTier : Tier :=
  Tier.mk 1 "Novice"
    [ Milestone.new "bronze" "Strength Intro" 10
        [⟨"Push-ups", 20, 10⟩, ⟨"Squats", 30, 15⟩] [],
      Milestone.new "silver" "Cardio Explorer" 15
        [⟨"Running", 30, 25⟩, ⟨"Cycling", 40, 30⟩, ⟨"Jumping Rope", 150, 20⟩] [],
      Milestone.new "gold" "Flexibility Focus" 12
        [⟨"Yoga", 30, 25⟩, ⟨"Pilates", 25, 25⟩, ⟨"Stretching", 20, 15⟩] [],
      Milestone.new "platinum" "All-Rounder" 25 []
        [ ⟨"Strength Cardio Mix",
            [⟨"Running", 40⟩, ⟨"Push-ups", 40⟩, ⟨"Squats", 50⟩], 50⟩,
          ⟨"Dynamic Movement",
            [⟨"Jumping Rope", 200⟩, ⟨"HIIT", 15⟩, ⟨"Cycling", 50⟩], 55⟩ ],
      Milestone.new "diamond" "Rising Star" 40 []
        [ ⟨"Novice Champion",
            [⟨"Running", 50⟩, ⟨"Push-ups", 50⟩, ⟨"Pull-ups", 10⟩, ⟨"Squats", 60⟩], 60⟩,
          ⟨"Complete Workout",
            [⟨"Cycling", 60⟩, ⟨"Yoga", 30⟩, ⟨"HIIT", 20⟩], 65⟩ ] ]

/-- Tier 2 of `_createDefaultTiers` ("Intermediate"). -/
def intermediateTier : Tier :=
  Tier.mk 2 "Intermediate"
    [ Milestone.new "bronze" "Power Builder" 15
        [⟨"Deadlifts", 15, 20⟩, ⟨"Bench Press", 20, 20⟩, ⟨"Squats", 40, 20⟩] [],
      Milestone.new "silver" "Endurance Runner" 20
        [⟨"Running", 50, 35⟩, ⟨"Cycling", 60, 40⟩, ⟨"Rowing", 40, 30⟩] [],
      Milestone.new "gold" "HIIT Master" 18
        [⟨"HIIT", 25, 25⟩, ⟨"Jumping Rope", 300, 20⟩] [],
      Milestone.new "platinum" "Dedicated" 35 []
        [ ⟨"Strength Beast",
            [⟨"Deadlifts", 30⟩, ⟨"Bench Press", 40⟩, ⟨"Pull-ups", 20⟩, ⟨"Squats", 80⟩], 60⟩,
          ⟨"Cardio Crusher",
            [⟨"Running", 70⟩, ⟨"Rowing", 60⟩, ⟨"HIIT", 30⟩], 70⟩,
          ⟨"Full Body Power",
            [⟨"Push-ups", 60⟩, ⟨"Squats", 80⟩, ⟨"Jumping Rope", 400⟩], 50⟩ ],
      Milestone.new "diamond" "Committed" 50 []
        [ ⟨"Intermediate Elite",
            [⟨"Deadlifts", 40⟩, ⟨"Pull-ups", 30⟩, ⟨"Push-ups", 100⟩, ⟨"Squats", 100⟩], 75⟩,
          ⟨"Endurance Challenge",
            [⟨"Running", 80⟩, ⟨"Cycling", 80⟩, ⟨"Swimming", 50⟩], 90⟩,
          ⟨"Complete Athlete",
            [⟨"HIIT", 40⟩, ⟨"Jumping Rope", 500⟩, ⟨"Push-ups", 70⟩], 65⟩ ] ]

/-- Tier 3 of `_createDefaultTiers` ("Advanced"). -/
def advancedTier : Tier :=
  Tier.mk 3 "Advanced"
    [ Milestone.new "bronze" "Strength Master" 25
        [⟨"Pull-ups", 30, 15⟩, ⟨"Deadlifts", 30, 25⟩, ⟨"Bench Press", 40, 25⟩] [],
      Milestone.new "silver" "Cardio Elite" 30
        [⟨"Running", 70, 45⟩, ⟨"Swimming", 60, 40⟩, ⟨"HIIT", 35, 30⟩] [],
      Milestone.new "gold" "Sports Pro" 25
        [⟨"Basketball", 60, 50⟩, ⟨"Soccer", 60, 50⟩, ⟨"Tennis", 50, 45⟩,
          ⟨"Martial Arts", 40, 40⟩] [],
      Milestone.new "platinum" "Peak Performer" 45 []
        [ ⟨"Ultimate Strength",
            [⟨"Pull-ups", 50⟩, ⟨"Deadlifts", 50⟩, ⟨"Bench Press", 60⟩, ⟨"Squats", 120⟩], 75⟩,
          ⟨"Endurance Beast",
            [⟨"Running", 100⟩, ⟨"Swimming", 80⟩, ⟨"Rowing", 80⟩], 100⟩,
          ⟨"Athletic Excellence",
            [⟨"HIIT", 50⟩, ⟨"Jumping Rope", 700⟩, ⟨"Martial Arts", 50⟩], 80⟩,
          ⟨"Functional Master",
            [⟨"Basketball", 80⟩, ⟨"Pull-ups", 40⟩, ⟨"Push-ups", 120⟩], 85⟩ ],
      Milestone.new "diamond" "Elite Athlete" 60 []
        [ ⟨"Advanced Elite Challenge",
            [⟨"Pull-ups", 60⟩, ⟨"Deadlifts", 60⟩, ⟨"Push-ups", 150⟩, ⟨"Squats", 150⟩], 90⟩,
          ⟨"Triathlon Simulation",
            [⟨"Swimming", 100⟩, ⟨"Cycling", 120⟩, ⟨"Running", 120⟩], 120⟩,
          ⟨"Warrior Test",
            [⟨"Martial Arts", 60⟩, ⟨"HIIT", 60⟩, ⟨"Rowing", 100⟩], 100⟩,
          ⟨"Complete Dominance",
            [⟨"Basketball", 100⟩, ⟨"Tennis", 80⟩, ⟨"Yoga", 50⟩], 110⟩ ] ]

/-- Tier 4 of `_createDefaultTiers` ("Master"). -/
def masterTier : Tier :=
  Tier.mk 4 "Master"
    [ Milestone.new "bronze" "Legend Strength" 35
        [⟨"Pull-ups", 50, 20⟩, ⟨"Deadlifts", 50, 30⟩, ⟨"Bench Press", 60, 30⟩,
          ⟨"Squats", 100, 30⟩] [],
      Milestone.new "silver" "Ironman Cardio" 40
        [⟨"Running", 100, 60⟩, ⟨"Swimming", 80, 50⟩, ⟨"Cycling", 120, 70⟩,
          ⟨"Rowing", 100, 60⟩] [],
      Milestone.new "gold" "Complete Athlete" 35
        [⟨"HIIT", 60, 40⟩, ⟨"Yoga", 50, 45⟩, ⟨"Martial Arts", 60, 50⟩] [],
      Milestone.new "platinum" "Unstoppable" 55 []
        [ ⟨"Master Strength Test",
            [⟨"Pull-ups", 80⟩, ⟨"Deadlifts", 80⟩, ⟨"Bench Press", 100⟩, ⟨"Squats", 200⟩], 100⟩,
          ⟨"Ironman Challenge",
            [⟨"Swimming", 150⟩, ⟨"Cycling", 180⟩, ⟨"Running", 150⟩], 150⟩,
          ⟨"Ultimate Warrior",
            [⟨"Martial Arts", 80⟩, ⟨"HIIT", 80⟩, ⟨"Rowing", 120⟩, ⟨"Jumping Rope", 1000⟩], 120⟩,
          ⟨"Athletic Mastery",
            [⟨"Basketball", 120⟩, ⟨"Soccer", 120⟩, ⟨"Tennis", 100⟩, ⟨"Pull-ups", 60⟩], 130⟩,
          ⟨"Complete Fitness",
            [⟨"Yoga", 60⟩, ⟨"Pilates", 50⟩, ⟨"Stretching", 40⟩, ⟨"Push-ups", 150⟩], 110⟩ ],
      Milestone.new "diamond" "Supreme Master" 75 []
        [ ⟨"Legend of Legends",
            [⟨"Pull-ups", 100⟩, ⟨"Deadlifts", 100⟩, ⟨"Push-ups", 200⟩, ⟨"Squats", 250⟩], 120⟩,
          ⟨"Ultra Endurance",
            [⟨"Running", 200⟩, ⟨"Swimming", 200⟩, ⟨"Cycling", 240⟩], 180⟩,
          ⟨"Supreme Warrior",
            [⟨"Martial Arts", 100⟩, ⟨"HIIT", 100⟩, ⟨"Rowing", 150⟩, ⟨"Bench Press", 100⟩], 140⟩,
          ⟨"Master of All",
            [⟨"Basketball", 150⟩, ⟨"Soccer", 150⟩, ⟨"Tennis", 120⟩, ⟨"Yoga", 70⟩], 150⟩,
          ⟨"Absolute Perfection",
            [⟨"Swimming", 180⟩, ⟨"Pull-ups", 80⟩, ⟨"Jumping Rope", 1500⟩, ⟨"Hiking", 120⟩], 160⟩ ] ]

/-- `_createDefaultTiers()`: the static five-tier catalog. -/
def createDefaultTiers : List Tier :=
  [beginnerTier, noviceTier, intermediateTier, advancedTier, masterTier]

/-- The `TierConfiguration` model (the catalog plus runtime state). -/
structure TierConfiguration where
  tiers : List Tier
deriving DecidableEq, Repr

/-- `new TierConfiguration()`: the default catalog. -/
def TierConfiguration.new : TierConfiguration :=
  ⟨createDefaultTiers⟩

/-- `tierCount`. -/
def TierConfiguration.tierCount (c : TierConfiguration) : Nat :=
  c.tiers.length

/-- `getTierByLevel(level)`: array access, `null` when out of range. -/
def TierConfiguration.getTierByLevel (c : TierConfiguration) (level : Nat) :
    Option Tier :=
  c.tiers[level]?

/-- The plain object produced by `TierConfiguration.toJSON`. -/
structure TierConfigurationJSON where
  tiers : List TierJSON
deriving DecidableEq, Repr

/-- `TierConfiguration.toJSON`. -/
def TierConfiguration.toJSON (c : TierConfiguration) : TierConfigurationJSON :=
  ⟨c.tiers.map Tier.toJSON⟩

/-- `TierConfiguration.fromJSON`. -/
def TierConfiguration.fromJSON (data : TierConfigurationJSON) : TierConfiguration :=
  ⟨data.tiers.map Tier.fromJSON⟩

/-- The fields of a `Workout` that the progression engine reads
(`type`, `milestoneType`, `tier`); id, proof method, date and notes
never influence progression. -/
structure Workout where
  type : String
  milestoneType : String
  tier : Nat
deriving DecidableEq, Repr

/-- The record persisted by `saveProgress`: `{id: "tier-progress",
...config.toJSON()}`, after the `JSON.parse(JSON.stringify(...))`
deep copy, which is the identity on this plain data. -/
structure SavedProgress where
  id : String
  tiers : List TierJSON
deriving DecidableEq, Repr

/-- The engine state seen through its two stateful ports: the in-memory
configuration, the athlete's current tier pointer (athlete-record
port), and the persisted record (persistence port). -/
structure EngineState where
  tierConfig : TierConfiguration
  athleteTier : Nat
  saved : Option SavedProgress
deriving DecidableEq, Repr

/-- The fixed persistence key `"tier-progress"`. -/
def progressKey : String := "tier-progress"

/-- `saveProgress()`: persist the whole configuration under the fixed
key (full overwrite). -/
def saveProgress (s : EngineState) : EngineState :=
  { s with saved := some ⟨progressKey, s.tierConfig.toJSON.tiers⟩ }

/-- The `milestoneProgress` part of a successful engine result. -/
structure MilestoneProgress where
  name : String
  progress : Nat
  required : Nat
  justCompleted : Bool
deriving DecidableEq, Repr

/-- The `tierLevelUp` part of an engine result:
`{leveledUp: false, maxTierReached: true}` or
`{leveledUp: true, newTier, tierName}`. -/
inductive TierLevelUp where
  | maxTierReached
  | leveledUp (newTier : Nat) (tierName : String)
deriving DecidableEq, Repr

/-- The result of `addWorkoutProgress` (and of the benchmark path):
`{success: false, error}` or `{success: true, milestoneProgress}` with
an optional `tierLevelUp` report. -/
inductive ProgressResult where
  | failure (error : String)
  | success (milestoneProgress : MilestoneProgress)
      (tierLevelUp : Option TierLevelUp)
deriving DecidableEq, Repr

/-- In-place mutation of the milestone object returned by
`findMilestoneByType`: rewrite the first milestone whose type matches,
leave the rest unchanged. -/
def updateFirstMilestone (milestones : List Milestone) (type : String)
    (f : Milestone → Milestone) : List Milestone :=
  match milestones with
  | [] => []
  | m :: rest =>
    if m.type == type then f m :: rest
    else m :: updateFirstMilestone rest type f

/-- The tier object after the in-place `addProgress(1)` mutation of the
milestone returned by `findMilestoneByType` (step 4, ordinary path). -/
def workoutUpdatedTier (tier : Tier) (milestoneType : String) : Tier :=
  let milestones' :=
    updateFirstMilestone tier.milestones milestoneType (fun m => (m.addProgress 1).1)
  { tier with milestones := milestones' }

/-- The tier object after the in-place `completeBenchmark(index)`
mutation of the milestone returned by `findMilestoneByType` (step 4,
benchmark path). -/
def benchmarkUpdatedTier (tier : Tier) (milestoneType : String)
    (benchmarkIndex : Nat) : Tier :=
  let milestones' :=
    updateFirstMilestone tier.milestones milestoneType
      (fun m => (m.completeBenchmark benchmarkIndex).1)
  { tier with milestones := milestones' }

/-- The engine state right after the milestone mutation and the
unconditional `saveProgress()` (steps 4–5 of the event state machine),
before the tier-advancement check. -/
def midEngineState (s : EngineState) (tierLevel : Nat) (tier' : Tier) : EngineState :=
  saveProgress { s with tierConfig := ⟨s.tierConfig.tiers.set tierLevel tier'⟩ }

/-- `_checkTierLevelUp(currentTierLevel)`: report `maxTierReached` with
no mutation when there is no next tier; otherwise reset the next
tier's milestones, write the athlete's tier pointer, re-persist, and
report the new level and tier name.  (The name lookup cannot miss:
`nextTierLevel < tierCount`.) -/
def ProgressionService.checkTierLevelUp (s : EngineState)
    (currentTierLevel : Nat) : TierLevelUp × EngineState :=
  let nextTierLevel := currentTierLevel + 1
  if nextTierLevel ≥ s.tierConfig.tierCount then
    (TierLevelUp.maxTierReached, s)
  else
    let config' : TierConfiguration :=
      match s.tierConfig.getTierByLevel nextTierLevel with
      | some nextTier => ⟨s.tierConfig.tiers.set nextTierLevel nextTier.resetProgress⟩
      | none => s.tierConfig
    let s1 := saveProgress { s with tierConfig := config', athleteTier := nextTierLevel }
    (TierLevelUp.leveledUp nextTierLevel
      (((config'.getTierByLevel nextTierLevel).map Tier.name).getD ""), s1)

/-- `addWorkoutProgress(workout)`: resolve tier and milestone, check
`acceptsWorkoutType`, apply `addProgress(1)`, persist, and run the
tier-advancement check when the (mutated) tier is complete. -/
def ProgressionService.addWorkoutProgress (s : EngineState) (workout : Workout) :
    ProgressResult × EngineState :=
  match s.tierConfig.getTierByLevel workout.tier with
  | none => (ProgressResult.failure "Invalid tier", s)
  | some tier =>
    match tier.findMilestoneByType workout.milestoneType with
    | none => (ProgressResult.failure "Invalid milestone", s)
    | some milestone =>
      if ¬ milestone.acceptsWorkoutType workout.type then
        (ProgressResult.failure
          (workout.type ++ " does not count towards " ++ milestone.name), s)
      else
        let wasCompleted := milestone.isCompleted
        let milestone' := (milestone.addProgress 1).1
        let nowCompleted := milestone'.isCompleted
        let tier' := workoutUpdatedTier tier workout.milestoneType
        let s1 := midEngineState s workout.tier tier'
        let milestoneProgress : MilestoneProgress :=
          ⟨milestone'.name, milestone'.progress, milestone'.requiredWorkouts,
            !wasCompleted && nowCompleted⟩
        if tier'.isCompleted then
          let r := ProgressionService.checkTierLevelUp s1 workout.tier
          (ProgressResult.success milestoneProgress (some r.1), r.2)
        else
          (ProgressResult.success milestoneProgress none, s1)

/-- Modelled from the spec: `ProgressionService.completeBenchmark` is
not present under `src/` (only its view-model callers are), so the
engine's benchmark path is reconstructed from spec §4.4 and §4.1:
resolve the tier (`InvalidTier`) and milestone (`InvalidMilestone`),
validate the benchmark index against `benchmarkWorkouts` — failing
with `InvalidBenchmarkIndex` and no state change when it is out of
range — otherwise dispatch `completeBenchmark(index)`, persist, and
run the tier-advancement check exactly as on the ordinary path. -/
def ProgressionService.completeBenchmark (s : EngineState) (workout : Workout)
    (benchmarkIndex : Nat) : ProgressResult × EngineState :=
  match s.tierConfig.getTierByLevel workout.tier with
  | none => (ProgressResult.failure "Invalid tier", s)
  | some tier =>
    match tier.findMilestoneByType workout.milestoneType with
    | none => (ProgressResult.failure "Invalid milestone", s)
    | some milestone =>
      if benchmarkIndex ≥ milestone.benchmarkWorkouts.length then
        (ProgressResult.failure "Invalid benchmark index", s)
      else
        let wasCompleted := milestone.isCompleted
        let milestone' := (milestone.completeBenchmark benchmarkIndex).1
        let nowCompleted := milestone'.isCompleted
        let tier' := benchmarkUpdatedTier tier workout.milestoneType benchmarkIndex
        let s1 := midEngineState s workout.tier tier'
        let milestoneProgress : MilestoneProgress :=
          ⟨milestone'.name, milestone'.benchmarksCompleted.length,
            milestone'.benchmarkWorkouts.length, !wasCompleted && nowCompleted⟩
        if tier'.isCompleted then
          let r := ProgressionService.checkTierLevelUp s1 workout.tier
          (ProgressResult.success milestoneProgress (some r.1), r.2)
        else
          (ProgressResult.success milestoneProgress none, s1)

/-- `resetAllProgress()`: fresh catalog, persist, athlete pointer to 0. -/
def ProgressionService.resetAllProgress (s : EngineState) : EngineState :=
  let s1 := saveProgress { s with tierConfig := TierConfiguration.new }
  { s1 with athleteTier := 0 }

/-- The source method named after loading — `initialize()`: when a saved record exists, replace the in-memory
configuration by `TierConfiguration.fromJSON` of it. -/
def ProgressionService.initializeFromStorage (s : EngineState) : EngineState :=
  match s.saved with
  | some savedProgress =>
    { s with tierConfig := TierConfiguration.fromJSON ⟨savedProgress.tiers⟩ }
  | none => s

/-- The engine's start state: fresh catalog, athlete on tier 0,
nothing persisted yet. -/
def initialEngineState : EngineState :=
  ⟨TierConfiguration.new, 0, none⟩

/-- The engine states reachable from the start state through the
engine's operations. -/
inductive Reachable : EngineState → Prop where
  | init : Reachable initialEngineState
  | workout (s : EngineState) (w : Workout) :
      Reachable s → Reachable (ProgressionService.addWorkoutProgress s w).2
  | benchmark (s : EngineState) (w : Workout) (i : Nat) :
      Reachable s → Reachable (ProgressionService.completeBenchmark s w i).2
  | reset (s : EngineState) :
      Reachable s → Reachable (ProgressionService.resetAllProgress s)
  | load (s : EngineState) :
      Reachable s → Reachable (ProgressionService.initializeFromStorage s)

/-! ### Serialization round-trip lemmas -/

theorem milestone_fromJSON_toJSON (m : Milestone) :
    Milestone.fromJSON (Milestone.toJSON m) = m := rfl

theorem tier_fromJSON_toJSON (t : Tier) : Tier.fromJSON (Tier.toJSON t) = t := by
  cases t with
  | mk level name milestones =>
    simp [Tier.fromJSON, Tier.toJSON, List.map_map, Function.comp_def,
      milestone_fromJSON_toJSON]

theorem config_fromJSON_toJSON (c : TierConfiguration) :
    TierConfiguration.fromJSON (TierConfiguration.toJSON c) = c := by
  cases c with
  | mk tiers =>
    simp [TierConfiguration.fromJSON, TierConfiguration.toJSON, List.map_map,
      Function.comp_def, tier_fromJSON_toJSON]

/-- C2: for every `TierConfiguration` (in particular every state reachable
via the engine's operations), `fromJSON(config.toJSON())` yields a
configuration identical to the original — hence every tier's `level`,
`name`, `isCompleted` and `progressPercent`, and every milestone's
`type`, `name`, `requiredWorkouts`, `workoutRequirements`,
`benchmarkWorkouts`, `progress` and `benchmarksCompleted`, agree with
those of the original configuration. -/
theorem c2_serialization_roundtrip (config : TierConfiguration) :
    TierConfiguration.fromJSON (TierConfiguration.toJSON config) = config ∧
    (TierConfiguration.fromJSON (TierConfiguration.toJSON config)).tiers.map
        (fun t => (t.level, t.name, t.isCompleted, t.progressPercent)) =
      config.tiers.map (fun t => (t.level, t.name, t.isCompleted, t.progressPercent)) ∧
    (TierConfiguration.fromJSON (TierConfiguration.toJSON config)).tiers.map
        (fun t => t.milestones.map (fun m =>
          (m.type, m.name, m.requiredWorkouts, m.workoutRequirements,
            m.benchmarkWorkouts, m.progress, m.benchmarksCompleted))) =
      config.tiers.map (fun t => t.milestones.map (fun m =>
        (m.type, m.name, m.requiredWorkouts, m.workoutRequirements,
          m.benchmarkWorkouts, m.progress, m.benchmarksCompleted))) := by
  refine ⟨config_fromJSON_toJSON config, ?_, ?_⟩ <;>
    rw [config_fromJSON_toJSON config]

/-! ### Monotonic clamping of cumulative progress -/

/-- `k` successive `addProgress(1)` calls. -/
def Milestone.addProgressTimes (m : Milestone) : Nat → Milestone
  | 0 => m
  | k + 1 => ((m.addProgressTimes k).addProgress 1).1

theorem addProgressTimes_requiredWorkouts (m : Milestone) (k : Nat) :
    (m.addProgressTimes k).requiredWorkouts = m.requiredWorkouts := by
  induction k with
  | zero => rfl
  | succ k ih => simp [Milestone.addProgressTimes, Milestone.addProgress, ih]

/-- A milestone whose progress respects the cap keeps respecting it
under any number of `addProgress(1)` calls. -/
theorem addProgressTimes_progress_le (m : Milestone) (k : Nat)
    (h : m.progress ≤ m.requiredWorkouts) :
    (m.addProgressTimes k).progress ≤ m.requiredWorkouts := by
  cases k with
  | zero => exact h
  | succ k =>
    have hr := addProgressTimes_requiredWorkouts m k
    simp only [Milestone.addProgressTimes, Milestone.addProgress]
    rw [hr]
    exact min_le_right _ _

/-- The spec's concrete example milestone: `requiredWorkouts = 5`,
cumulative mode, fresh. -/
def fiveMilestone : Milestone := Milestone.new "bronze" "Five Required" 5 [] []

/-- C3: for every milestone whose progress is within its cap, any
sequence of `addProgress(1)` calls keeps
`0 ≤ progress ≤ requiredWorkouts` (excess increments are clamped, not
rejected); in particular a milestone with `requiredWorkouts = 5` has
`progress = 5` and `isCompleted = true` after seven `addProgress(1)`
calls. -/
theorem c3_monotonic_clamp :
    (∀ (m : Milestone) (k : Nat), m.progress ≤ m.requiredWorkouts →
      0 ≤ (m.addProgressTimes k).progress ∧
      (m.addProgressTimes k).progress ≤ m.requiredWorkouts) ∧
    ((fiveMilestone.addProgressTimes 7).progress = 5 ∧
      (fiveMilestone.addProgressTimes 7).isCompleted = true) := by
  refine ⟨fun m k h => ⟨Nat.zero_le _, addProgressTimes_progress_le m k h⟩, ?_, ?_⟩ <;>
    decide

/-- Witness for C3 at the concrete example milestone. -/
theorem c3_monotonic_clamp_witness :
    fiveMilestone.progress ≤ fiveMilestone.requiredWorkouts ∧
    (0 ≤ (fiveMilestone.addProgressTimes 7).progress ∧
      (fiveMilestone.addProgressTimes 7).progress ≤ fiveMilestone.requiredWorkouts) :=
  ⟨by decide, c3_monotonic_clamp.1 fiveMilestone 7 (by decide)⟩

/-! ### Idempotence of completeBenchmark -/

theorem completeBenchmark_contains (m : Milestone) (i : Nat) :
    i ∈ (m.completeBenchmark i).1.benchmarksCompleted := by
  by_cases h : i ∈ m.benchmarksCompleted <;>
    simp [Milestone.completeBenchmark, h]

/-- A fresh benchmark milestone with two benchmark workouts, for the
spec's idempotence example. -/
def twoBenchMilestone : Milestone :=
  Milestone.new "platinum" "Two Benchmarks" 20 []
    [⟨"First Challenge", [⟨"Running", 10⟩], 30⟩,
      ⟨"Second Challenge", [⟨"Squats", 20⟩], 30⟩]

/-- C8: completing the same benchmark twice has no additional effect —
the milestone after two `completeBenchmark(i)` calls equals the
milestone after one, and the repeat does not change `isCompleted`;
e.g. `completeBenchmark(0)` twice yields the set `{0}`, not `{0,0}`. -/
theorem c8_completeBenchmark_idempotent :
    (∀ (m : Milestone) (i : Nat),
      ((m.completeBenchmark i).1.completeBenchmark i).1 = (m.completeBenchmark i).1 ∧
      ((m.completeBenchmark i).1.completeBenchmark i).1.isCompleted =
        (m.completeBenchmark i).1.isCompleted) ∧
    (((twoBenchMilestone.completeBenchmark 0).1.completeBenchmark 0).1.benchmarksCompleted
        = [0] ∧
      ((twoBenchMilestone.completeBenchmark 0).1.completeBenchmark 0).1.isCompleted =
        (twoBenchMilestone.completeBenchmark 0).1.isCompleted) := by
  refine ⟨fun m i => ?_, by decide, by decide⟩
  have h := completeBenchmark_contains m i
  set m₁ := (m.completeBenchmark i).1
  constructor
  · simp [Milestone.completeBenchmark, h]
  · simp [Milestone.completeBenchmark, h]

/-! ### The weighted tier percentage -/

/-- The spec's per-milestone contribution to "workouts needed":
`requiredWorkouts` for a cumulative-mode milestone,
`ceil(requiredWorkouts * 0.15)` for a benchmark-mode milestone. -/
def specNeededContribution (m : Milestone) : ℚ :=
  if m.usesBenchmarks then ((⌈(m.requiredWorkouts : ℚ) * (15 / 100)⌉ : ℤ) : ℚ)
  else (m.requiredWorkouts : ℚ)

/-- The spec's per-milestone contribution to "workouts completed":
`progress` for a cumulative-mode milestone, and the weighted needed
value times the completed-benchmark fraction for a benchmark-mode
milestone. -/
def specCompletedContribution (m : Milestone) : ℚ :=
  if m.usesBenchmarks then
    ((⌈(m.requiredWorkouts : ℚ) * (15 / 100)⌉ : ℤ) : ℚ) *
      ((m.benchmarksCompleted.length : ℚ) / (m.benchmarkWorkouts.length : ℚ))
  else (m.progress : ℚ)

theorem foldl_needed (l : List Milestone) (a : ℚ) :
    l.foldl
        (fun sum milestone =>
          if milestone.usesBenchmarks then
            sum + benchmarkWeight milestone.requiredWorkouts
          else
            sum + (milestone.requiredWorkouts : ℚ)) a
      = a + (l.map specNeededContribution).sum := by
  induction l generalizing a with
  | nil => simp
  | cons m rest ih =>
    simp only [List.foldl_cons, List.map_cons, List.sum_cons, ih]
    by_cases h : m.usesBenchmarks <;>
      simp only [specNeededContribution, benchmarkWeight, h, if_true, if_false,
        Bool.false_eq_true, reduceIte] <;> ring

theorem foldl_completed (l : List Milestone) (a : ℚ) :
    l.foldl
        (fun sum milestone =>
          if milestone.usesBenchmarks then
            sum + ((milestone.benchmarksCompleted.length : ℚ) /
                (milestone.benchmarkWorkouts.length : ℚ)) *
                benchmarkWeight milestone.requiredWorkouts
          else
            sum + (milestone.progress : ℚ)) a
      = a + (l.map specCompletedContribution).sum := by
  induction l generalizing a with
  | nil => simp
  | cons m rest ih =>
    simp only [List.foldl_cons, List.map_cons, List.sum_cons, ih]
    by_cases h : m.usesBenchmarks <;>
      simp only [specCompletedContribution, benchmarkWeight, h, if_true, if_false,
        Bool.false_eq_true, reduceIte] <;> ring

theorem getTotalWorkoutsNeeded_eq_sum (t : Tier) :
    t.getTotalWorkoutsNeeded = (t.milestones.map specNeededContribution).sum := by
  unfold Tier.getTotalWorkoutsNeeded
  rw [foldl_needed]
  ring

theorem getTotalWorkoutsCompleted_eq_sum (t : Tier) :
    t.getTotalWorkoutsCompleted = (t.milestones.map specCompletedContribution).sum := by
  unfold Tier.getTotalWorkoutsCompleted
  rw [foldl_completed]
  ring

/-- The cumulative milestone of the spec's weighted-percentage example:
`requiredWorkouts = 10`, `progress = 5`. -/
def c1CumulativeMilestone : Milestone :=
  ⟨"bronze", "Cumulative Example", 10, [], [], 5, []⟩

/-- The benchmark milestone of the spec's weighted-percentage example:
`requiredWorkouts = 20`, four benchmarks, two of them completed. -/
def c1BenchmarkMilestone : Milestone :=
  ⟨"platinum", "Benchmark Example", 20, [],
    [⟨"B1", [], 10⟩, ⟨"B2", [], 10⟩, ⟨"B3", [], 10⟩, ⟨"B4", [], 10⟩],
    0, [0, 1]⟩

/-- The spec's weighted-percentage example tier. -/
def c1ExampleTier : Tier :=
  Tier.mk 0 "Example" [c1CumulativeMilestone, c1BenchmarkMilestone]

/-- C1: for every tier, `getTotalWorkoutsNeeded()` sums
`requiredWorkouts` over cumulative-mode milestones and
`ceil(requiredWorkouts * 0.15)` over benchmark-mode milestones;
`getTotalWorkoutsCompleted()` sums `progress` over cumulative-mode
milestones and the weighted value times the completed fraction over
benchmark-mode milestones; `progressPercent` is
`min(100, 100 * totalCompleted / totalNeeded)`, or `0` when
`totalNeeded` is `0`.  The spec's example tier evaluates to
needed `13`, completed `6.5`, percentage `50`. -/
theorem c1_weighted_tier_progress :
    (∀ t : Tier, t.getTotalWorkoutsNeeded = (t.milestones.map specNeededContribution).sum) ∧
    (∀ t : Tier, t.getTotalWorkoutsCompleted =
      (t.milestones.map specCompletedContribution).sum) ∧
    (∀ t : Tier, t.progressPercent =
      if t.getTotalWorkoutsNeeded = 0 then 0
      else min 100 (100 * t.getTotalWorkoutsCompleted / t.getTotalWorkoutsNeeded)) ∧
    (c1ExampleTier.getTotalWorkoutsNeeded = 13 ∧
      c1ExampleTier.getTotalWorkoutsCompleted = 13 / 2 ∧
      c1ExampleTier.progressPercent = 50) := by
  have h1 : c1ExampleTier.getTotalWorkoutsNeeded = 13 := by
    rw [getTotalWorkoutsNeeded_eq_sum]
    simp [c1ExampleTier, c1CumulativeMilestone, c1BenchmarkMilestone,
      specNeededContribution, Milestone.usesBenchmarks]
    norm_num
  have h2 : c1ExampleTier.getTotalWorkoutsCompleted = 13 / 2 := by
    rw [getTotalWorkoutsCompleted_eq_sum]
    simp [c1ExampleTier, c1CumulativeMilestone, c1BenchmarkMilestone,
      specCompletedContribution, Milestone.usesBenchmarks]
    norm_num
  have h3 : c1ExampleTier.progressPercent = 50 := by
    unfold Tier.progressPercent
    rw [h1, h2]
    norm_num
  refine ⟨getTotalWorkoutsNeeded_eq_sum, getTotalWorkoutsCompleted_eq_sum,
    fun t => ?_, h1, h2, h3⟩
  unfold Tier.progressPercent
  split
  · rfl
  · congr 1
    ring

/-! ### Zero divisors in Milestone.progressPercent -/

/-- A hypothetical cumulative-mode milestone with `requiredWorkouts = 0`
(no such milestone exists in the default catalog). -/
def zeroRequiredMilestone : Milestone := Milestone.new "bronze" "Zero Required" 0 [] []

/-- C9 fails on the code: for a cumulative-mode milestone with
`requiredWorkouts = 0` the division in `progressPercent` is performed
unguarded and evaluates to `NaN` (`0 / 0`), not `0`. -/
theorem c9_counterexample :
    zeroRequiredMilestone.usesBenchmarks = false ∧
    zeroRequiredMilestone.requiredWorkouts = 0 ∧
    zeroRequiredMilestone.progressPercent = JsNum.nan ∧
    zeroRequiredMilestone.progressPercent ≠ JsNum.num 0 := by
  decide

/-- C9 amended: the zero-divisor guard exists only in the benchmark
branch, where it is unreachable (benchmark mode means
`benchmarkWorkouts` is non-empty); in cumulative mode the division is
unguarded, so `requiredWorkouts = 0` yields `NaN` when `progress = 0`
and `100` (`Infinity` clamped by `Math.min`) when `progress > 0` — not
`0`; with a positive `requiredWorkouts` the cumulative percentage is
the clamped exact ratio; and every milestone of the default catalog
has `requiredWorkouts > 0`, so the unguarded division never sees a
zero divisor in a well-formed catalog. -/
theorem c9_zero_divisor_behaviour :
    (∀ m : Milestone, m.usesBenchmarks = true → m.benchmarkWorkouts.length ≠ 0) ∧
    (∀ m : Milestone, m.usesBenchmarks = false → m.requiredWorkouts = 0 →
      m.progressPercent = if m.progress = 0 then JsNum.nan else JsNum.num 100) ∧
    (∀ m : Milestone, m.usesBenchmarks = false → 0 < m.requiredWorkouts →
      m.progressPercent =
        JsNum.num (min 100 ((m.progress : ℚ) / (m.requiredWorkouts : ℚ) * 100))) ∧
    (∀ tier ∈ createDefaultTiers, ∀ m ∈ tier.milestones, 0 < m.requiredWorkouts) := by
  refine ⟨?_, ?_, ?_, ?_⟩
  · intro m h
    simp only [Milestone.usesBenchmarks, decide_eq_true_eq] at h
    omega
  · intro m h hr
    by_cases hp : m.progress = 0
    · simp [Milestone.progressPercent, h, hr, hp, jsDiv, JsNum.mulPos, jsMin100]
    · have hp' : 0 < (m.progress : ℚ) := by
        exact_mod_cast Nat.pos_of_ne_zero hp
      simp [Milestone.progressPercent, h, hr, hp, jsDiv, JsNum.mulPos, jsMin100,
        hp'.ne', hp']
  · intro m h hr
    have hr' : ((m.requiredWorkouts : ℚ)) ≠ 0 := by
      exact_mod_cast Nat.pos_iff_ne_zero.mp hr
    simp [Milestone.progressPercent, h, jsDiv, hr', JsNum.mulPos, jsMin100]
  · decide

/-- Witness for the amended C9 at concrete milestones: the
zero-required milestone evaluates to `NaN`, a half-done milestone with
`requiredWorkouts = 10` evaluates to `50`, and the catalog check is
instantiated at the first catalog milestone. -/
theorem c9_zero_divisor_behaviour_witness :
    zeroRequiredMilestone.progressPercent =
      (if zeroRequiredMilestone.progress = 0 then JsNum.nan else JsNum.num 100) ∧
    c1CumulativeMilestone.progressPercent =
      JsNum.num (min 100 ((c1CumulativeMilestone.progress : ℚ) /
        (c1CumulativeMilestone.requiredWorkouts : ℚ) * 100)) ∧
    0 < (Milestone.new "bronze" "First Steps" 5
        [⟨"Walking", 15, 30⟩, ⟨"Stretching", 10, 15⟩] []).requiredWorkouts :=
  ⟨c9_zero_divisor_behaviour.2.1 zeroRequiredMilestone (by decide) (by decide),
    c9_zero_divisor_behaviour.2.2.1 c1CumulativeMilestone (by decide) (by decide),
    c9_zero_divisor_behaviour.2.2.2 beginnerTier (List.Mem.head _)
      _ (List.Mem.head _)⟩

/-! ### Engine unfolding lemmas -/

theorem addWorkoutProgress_no_tier (s : EngineState) (w : Workout)
    (htier : s.tierConfig.getTierByLevel w.tier = none) :
    ProgressionService.addWorkoutProgress s w =
      (ProgressResult.failure "Invalid tier", s) := by
  unfold ProgressionService.addWorkoutProgress
  simp only [htier]

theorem addWorkoutProgress_no_milestone (s : EngineState) (w : Workout)
    (tier : Tier) (htier : s.tierConfig.getTierByLevel w.tier = some tier)
    (hms : tier.findMilestoneByType w.milestoneType = none) :
    ProgressionService.addWorkoutProgress s w =
      (ProgressResult.failure "Invalid milestone", s) := by
  unfold ProgressionService.addWorkoutProgress
  simp only [htier, hms]

theorem addWorkoutProgress_not_accepted (s : EngineState) (w : Workout)
    (tier : Tier) (milestone : Milestone)
    (htier : s.tierConfig.getTierByLevel w.tier = some tier)
    (hms : tier.findMilestoneByType w.milestoneType = some milestone)
    (hacc : milestone.acceptsWorkoutType w.type = false) :
    ProgressionService.addWorkoutProgress s w =
      (ProgressResult.failure
        (w.type ++ " does not count towards " ++ milestone.name), s) := by
  unfold ProgressionService.addWorkoutProgress
  simp only [htier, hms]
  simp [hacc]

theorem addWorkoutProgress_accepted (s : EngineState) (w : Workout)
    (tier : Tier) (milestone : Milestone)
    (htier : s.tierConfig.getTierByLevel w.tier = some tier)
    (hms : tier.findMilestoneByType w.milestoneType = some milestone)
    (hacc : milestone.acceptsWorkoutType w.type = true) :
    ProgressionService.addWorkoutProgress s w =
      (if (workoutUpdatedTier tier w.milestoneType).isCompleted then
        (ProgressResult.success
            ⟨(milestone.addProgress 1).1.name, (milestone.addProgress 1).1.progress,
              (milestone.addProgress 1).1.requiredWorkouts,
              !milestone.isCompleted && (milestone.addProgress 1).1.isCompleted⟩
          (some (ProgressionService.checkTierLevelUp
              (midEngineState s w.tier (workoutUpdatedTier tier w.milestoneType))
              w.tier).1),
          (ProgressionService.checkTierLevelUp
            (midEngineState s w.tier (workoutUpdatedTier tier w.milestoneType)) w.tier).2)
      else
        (ProgressResult.success
            ⟨(milestone.addProgress 1).1.name, (milestone.addProgress 1).1.progress,
              (milestone.addProgress 1).1.requiredWorkouts,
              !milestone.isCompleted && (milestone.addProgress 1).1.isCompleted⟩
          none,
          midEngineState s w.tier (workoutUpdatedTier tier w.milestoneType))) := by
  unfold ProgressionService.addWorkoutProgress
  simp only [htier, hms]
  simp [hacc]

theorem checkTierLevelUp_max (s : EngineState) (lvl : Nat)
    (h : s.tierConfig.tierCount ≤ lvl + 1) :
    ProgressionService.checkTierLevelUp s lvl = (TierLevelUp.maxTierReached, s) := by
  unfold ProgressionService.checkTierLevelUp
  simp [ge_iff_le, h]

theorem checkTierLevelUp_next (s : EngineState) (lvl : Nat)
    (h : lvl + 1 < s.tierConfig.tierCount) :
    ProgressionService.checkTierLevelUp s lvl =
      (TierLevelUp.leveledUp (lvl + 1) (s.tierConfig.tiers.get ⟨lvl + 1, h⟩).name,
        saveProgress
          { s with
            tierConfig :=
              ⟨s.tierConfig.tiers.set (lvl + 1)
                ((s.tierConfig.tiers.get ⟨lvl + 1, h⟩).resetProgress)⟩,
            athleteTier := lvl + 1 }) := by
  have hlen : lvl + 1 < s.tierConfig.tiers.length := h
  have hnot : ¬ (lvl + 1 ≥ s.tierConfig.tierCount) := by omega
  have hget : s.tierConfig.getTierByLevel (lvl + 1) =
      some (s.tierConfig.tiers.get ⟨lvl + 1, h⟩) := by
    simp [TierConfiguration.getTierByLevel, List.getElem?_eq_getElem hlen]
  unfold ProgressionService.checkTierLevelUp
  rw [if_neg hnot, hget]
  have hname : ((⟨s.tierConfig.tiers.set (lvl + 1)
        ((s.tierConfig.tiers.get ⟨lvl + 1, h⟩).resetProgress)⟩ :
      TierConfiguration).getTierByLevel (lvl + 1)) =
      some ((s.tierConfig.tiers.get ⟨lvl + 1, h⟩).resetProgress) := by
    simp [TierConfiguration.getTierByLevel, List.getElem?_set_self hlen]
  simp only [hname, Option.map_some, Option.getD_some]
  rfl

/-- C7: when `addWorkoutProgress` rejects an event — unknown tier
(`Invalid tier`), unknown milestone type in that tier
(`Invalid milestone`), or a workout type the milestone does not accept
— it returns a failure result and the engine state is unchanged: no
milestone progress or completed-benchmark set moves, no tier is reset,
the athlete tier pointer is not written, and nothing is persisted. -/
theorem c7_rejection_no_state_change :
    ∀ (s : EngineState) (w : Workout),
      (s.tierConfig.getTierByLevel w.tier = none →
        ProgressionService.addWorkoutProgress s w =
          (ProgressResult.failure "Invalid tier", s)) ∧
      (∀ tier, s.tierConfig.getTierByLevel w.tier = some tier →
        tier.findMilestoneByType w.milestoneType = none →
        ProgressionService.addWorkoutProgress s w =
          (ProgressResult.failure "Invalid milestone", s)) ∧
      (∀ tier milestone, s.tierConfig.getTierByLevel w.tier = some tier →
        tier.findMilestoneByType w.milestoneType = some milestone →
        milestone.acceptsWorkoutType w.type = false →
        ProgressionService.addWorkoutProgress s w =
          (ProgressResult.failure
            (w.type ++ " does not count towards " ++ milestone.name), s)) :=
  fun s w =>
    ⟨addWorkoutProgress_no_tier s w,
      fun tier htier hms => addWorkoutProgress_no_milestone s w tier htier hms,
      fun tier milestone htier hms hacc =>
        addWorkoutProgress_not_accepted s w tier milestone htier hms hacc⟩

/-- Witness for C7: the three rejection paths at concrete events
against the initial engine state — unknown tier level `99`, unknown
milestone type `"emerald"`, and a `"Running"` workout against the
tier-0 bronze milestone (which accepts only Walking/Stretching). -/
theorem c7_rejection_no_state_change_witness :
    ProgressionService.addWorkoutProgress initialEngineState ⟨"Running", "bronze", 99⟩ =
      (ProgressResult.failure "Invalid tier", initialEngineState) ∧
    ProgressionService.addWorkoutProgress initialEngineState ⟨"Running", "emerald", 0⟩ =
      (ProgressResult.failure "Invalid milestone", initialEngineState) ∧
    ProgressionService.addWorkoutProgress initialEngineState ⟨"Running", "bronze", 0⟩ =
      (ProgressResult.failure
        ((Workout.mk "Running" "bronze" 0).type ++ " does not count towards " ++
          (Milestone.new "bronze" "First Steps" 5
            [⟨"Walking", 15, 30⟩, ⟨"Stretching", 10, 15⟩] []).name),
        initialEngineState) :=
  ⟨(c7_rejection_no_state_change initialEngineState ⟨"Running", "bronze", 99⟩).1
      (by decide),
    (c7_rejection_no_state_change initialEngineState ⟨"Running", "emerald", 0⟩).2.1
      beginnerTier (by decide) (by decide),
    (c7_rejection_no_state_change initialEngineState ⟨"Running", "bronze", 0⟩).2.2
      beginnerTier
      (Milestone.new "bronze" "First Steps" 5
        [⟨"Walking", 15, 30⟩, ⟨"Stretching", 10, 15⟩] [])
      (by decide) (by decide) (by decide)⟩

theorem getTierByLevel_lt (c : TierConfiguration) (lvl : Nat) (tier : Tier)
    (h : c.getTierByLevel lvl = some tier) : lvl < c.tiers.length := by
  simp only [TierConfiguration.getTierByLevel] at h
  rcases List.getElem?_eq_some_iff.mp h with ⟨hlt, _⟩
  exact hlt

/-- Shared core: the leveled-up branch of the tier-advancement check,
as triggered by an accepted workout event that leaves its tier
complete while a next tier exists. -/
theorem addWorkoutProgress_complete_next (s : EngineState) (w : Workout)
    (tier : Tier) (milestone : Milestone)
    (htier : s.tierConfig.getTierByLevel w.tier = some tier)
    (hms : tier.findMilestoneByType w.milestoneType = some milestone)
    (hacc : milestone.acceptsWorkoutType w.type = true)
    (hdone : (workoutUpdatedTier tier w.milestoneType).isCompleted = true)
    (h : w.tier + 1 < s.tierConfig.tierCount) :
    (ProgressionService.addWorkoutProgress s w).1 =
      ProgressResult.success
        ⟨(milestone.addProgress 1).1.name, (milestone.addProgress 1).1.progress,
          (milestone.addProgress 1).1.requiredWorkouts,
          !milestone.isCompleted && (milestone.addProgress 1).1.isCompleted⟩
        (some (TierLevelUp.leveledUp (w.tier + 1)
          (s.tierConfig.tiers.get ⟨w.tier + 1, h⟩).name)) ∧
    (ProgressionService.addWorkoutProgress s w).2.athleteTier = w.tier + 1 ∧
    (ProgressionService.addWorkoutProgress s w).2.tierConfig.tiers[w.tier + 1]? =
      some (s.tierConfig.tiers.get ⟨w.tier + 1, h⟩).resetProgress ∧
    (ProgressionService.addWorkoutProgress s w).2.tierConfig.tiers[w.tier]? =
      some (workoutUpdatedTier tier w.milestoneType) ∧
    (∀ j, j ≠ w.tier → j ≠ w.tier + 1 →
      (ProgressionService.addWorkoutProgress s w).2.tierConfig.tiers[j]? =
        s.tierConfig.tiers[j]?) ∧
    (ProgressionService.addWorkoutProgress s w).2.saved =
      some ⟨progressKey,
        (ProgressionService.addWorkoutProgress s w).2.tierConfig.toJSON.tiers⟩ := by
  have hunf := addWorkoutProgress_accepted s w tier milestone htier hms hacc
  rw [if_pos hdone] at hunf
  have hwlt : w.tier < s.tierConfig.tiers.length := getTierByLevel_lt _ _ _ htier
  have hmidtiers : (midEngineState s w.tier (workoutUpdatedTier tier w.milestoneType)).tierConfig.tiers
      = s.tierConfig.tiers.set w.tier (workoutUpdatedTier tier w.milestoneType) := rfl
  have hmidcount : (midEngineState s w.tier (workoutUpdatedTier tier w.milestoneType)).tierConfig.tierCount
      = s.tierConfig.tierCount := by
    simp [midEngineState, saveProgress, TierConfiguration.tierCount]
  have h' : w.tier + 1 <
      (midEngineState s w.tier (workoutUpdatedTier tier w.milestoneType)).tierConfig.tierCount := by
    rw [hmidcount]; exact h
  have hgetmid : (midEngineState s w.tier (workoutUpdatedTier tier w.milestoneType)).tierConfig.tiers.get
        ⟨w.tier + 1, h'⟩
      = s.tierConfig.tiers.get ⟨w.tier + 1, h⟩ := by
    simp only [hmidtiers, List.get_eq_getElem]
    exact List.getElem_set_ne (by omega) _
  have hnext :=
    checkTierLevelUp_next (midEngineState s w.tier (workoutUpdatedTier tier w.milestoneType)) w.tier h'
  rw [hgetmid] at hnext
  rw [hnext] at hunf
  rw [hunf]
  refine ⟨rfl, rfl, ?_, ?_, ?_, rfl⟩
  · show ((midEngineState s w.tier (workoutUpdatedTier tier w.milestoneType)).tierConfig.tiers.set
        (w.tier + 1) (s.tierConfig.tiers.get ⟨w.tier + 1, h⟩).resetProgress)[w.tier + 1]?
      = some (s.tierConfig.tiers.get ⟨w.tier + 1, h⟩).resetProgress
    have hlen : w.tier + 1 <
        (midEngineState s w.tier (workoutUpdatedTier tier w.milestoneType)).tierConfig.tiers.length := h'
    exact List.getElem?_set_self hlen
  · show ((midEngineState s w.tier (workoutUpdatedTier tier w.milestoneType)).tierConfig.tiers.set
        (w.tier + 1) (s.tierConfig.tiers.get ⟨w.tier + 1, h⟩).resetProgress)[w.tier]?
      = some (workoutUpdatedTier tier w.milestoneType)
    rw [List.getElem?_set_ne (by omega)]
    rw [hmidtiers]
    exact List.getElem?_set_self hwlt
  · intro j hj1 hj2
    show ((midEngineState s w.tier (workoutUpdatedTier tier w.milestoneType)).tierConfig.tiers.set
        (w.tier + 1) (s.tierConfig.tiers.get ⟨w.tier + 1, h⟩).resetProgress)[j]?
      = s.tierConfig.tiers[j]?
    rw [List.getElem?_set_ne (by omega)]
    rw [hmidtiers]
    exact List.getElem?_set_ne (by omega)

/-- Shared core: the `maxTierReached` branch — the completed tier is
the last one, and no mutation happens beyond the already-performed
milestone update and save. -/
theorem addWorkoutProgress_complete_max (s : EngineState) (w : Workout)
    (tier : Tier) (milestone : Milestone)
    (htier : s.tierConfig.getTierByLevel w.tier = some tier)
    (hms : tier.findMilestoneByType w.milestoneType = some milestone)
    (hacc : milestone.acceptsWorkoutType w.type = true)
    (hdone : (workoutUpdatedTier tier w.milestoneType).isCompleted = true)
    (h : s.tierConfig.tierCount ≤ w.tier + 1) :
    (ProgressionService.addWorkoutProgress s w).1 =
      ProgressResult.success
        ⟨(milestone.addProgress 1).1.name, (milestone.addProgress 1).1.progress,
          (milestone.addProgress 1).1.requiredWorkouts,
          !milestone.isCompleted && (milestone.addProgress 1).1.isCompleted⟩
        (some TierLevelUp.maxTierReached) ∧
    (ProgressionService.addWorkoutProgress s w).2 =
      midEngineState s w.tier (workoutUpdatedTier tier w.milestoneType) := by
  have hunf := addWorkoutProgress_accepted s w tier milestone htier hms hacc
  rw [if_pos hdone] at hunf
  have hmidcount : (midEngineState s w.tier (workoutUpdatedTier tier w.milestoneType)).tierConfig.tierCount
      = s.tierConfig.tierCount := by
    simp [midEngineState, saveProgress, TierConfiguration.tierCount]
  have h' : (midEngineState s w.tier (workoutUpdatedTier tier w.milestoneType)).tierConfig.tierCount
      ≤ w.tier + 1 := by
    rw [hmidcount]; exact h
  have hmax :=
    checkTierLevelUp_max (midEngineState s w.tier (workoutUpdatedTier tier w.milestoneType)) w.tier h'
  rw [hmax] at hunf
  rw [hunf]
  exact ⟨rfl, rfl⟩

/-- C4: when a processed workout event leaves its tier complete and a
next tier exists, the engine resets exactly the next tier's milestones
to zero, writes the athlete's tier pointer to the next level,
re-persists the configuration, and reports `leveledUp` with the new
tier's level and name; the just-completed tier keeps its (updated, not
reset) milestone data and every other tier is untouched.  When the
completed tier is the last one, the engine reports `maxTierReached`
and the state stays exactly the post-update, post-save state. -/
theorem c4_tier_advancement :
    (∀ t : Tier, ∀ m ∈ t.resetProgress.milestones,
      m.progress = 0 ∧ m.benchmarksCompleted = ([] : List Nat)) ∧
    ∀ (s : EngineState) (w : Workout) (tier : Tier) (milestone : Milestone),
      s.tierConfig.getTierByLevel w.tier = some tier →
      tier.findMilestoneByType w.milestoneType = some milestone →
      milestone.acceptsWorkoutType w.type = true →
      (workoutUpdatedTier tier w.milestoneType).isCompleted = true →
      ((∀ h : w.tier + 1 < s.tierConfig.tierCount,
        (ProgressionService.addWorkoutProgress s w).1 =
          ProgressResult.success
            ⟨(milestone.addProgress 1).1.name, (milestone.addProgress 1).1.progress,
              (milestone.addProgress 1).1.requiredWorkouts,
              !milestone.isCompleted && (milestone.addProgress 1).1.isCompleted⟩
            (some (TierLevelUp.leveledUp (w.tier + 1)
              (s.tierConfig.tiers.get ⟨w.tier + 1, h⟩).name)) ∧
        (ProgressionService.addWorkoutProgress s w).2.athleteTier = w.tier + 1 ∧
        (ProgressionService.addWorkoutProgress s w).2.tierConfig.tiers[w.tier + 1]? =
          some (s.tierConfig.tiers.get ⟨w.tier + 1, h⟩).resetProgress ∧
        (ProgressionService.addWorkoutProgress s w).2.tierConfig.tiers[w.tier]? =
          some (workoutUpdatedTier tier w.milestoneType) ∧
        (∀ j, j ≠ w.tier → j ≠ w.tier + 1 →
          (ProgressionService.addWorkoutProgress s w).2.tierConfig.tiers[j]? =
            s.tierConfig.tiers[j]?) ∧
        (ProgressionService.addWorkoutProgress s w).2.saved =
          some ⟨progressKey,
            (ProgressionService.addWorkoutProgress s w).2.tierConfig.toJSON.tiers⟩) ∧
      (s.tierConfig.tierCount ≤ w.tier + 1 →
        (ProgressionService.addWorkoutProgress s w).1 =
          ProgressResult.success
            ⟨(milestone.addProgress 1).1.name, (milestone.addProgress 1).1.progress,
              (milestone.addProgress 1).1.requiredWorkouts,
              !milestone.isCompleted && (milestone.addProgress 1).1.isCompleted⟩
            (some TierLevelUp.maxTierReached) ∧
        (ProgressionService.addWorkoutProgress s w).2 =
          midEngineState s w.tier (workoutUpdatedTier tier w.milestoneType))) := by
  constructor
  · intro t m hm
    simp only [Tier.resetProgress, List.mem_map] at hm
    rcases hm with ⟨a, _, rfl⟩
    exact ⟨rfl, rfl⟩
  intro s w tier milestone htier hms hacc hdone
  exact ⟨fun h => addWorkoutProgress_complete_next s w tier milestone htier hms hacc hdone h,
    fun h => addWorkoutProgress_complete_max s w tier milestone htier hms hacc hdone h⟩

/-- A one-milestone tier needing a single workout, used to exercise the
advancement paths on a small concrete configuration. -/
def miniTierZero : Tier := ⟨0, "Mini Zero", [⟨"bronze", "Mini A", 1, [], [], 0, []⟩]⟩

/-- A one-milestone next tier carrying some progress (which advancement
discards). -/
def miniTierOne : Tier := ⟨1, "Mini One", [⟨"bronze", "Mini B", 3, [], [], 2, []⟩]⟩

/-- A two-tier engine state about to complete its first tier. -/
def miniState : EngineState := ⟨⟨[miniTierZero, miniTierOne]⟩, 0, none⟩

/-- An ordinary workout event against the mini states. -/
def miniWorkout : Workout := ⟨"Running", "bronze", 0⟩

/-- A single-tier engine state (completing it hits the last tier). -/
def soloState : EngineState := ⟨⟨[miniTierZero]⟩, 0, none⟩

/-- Witness for C4 on the mini states: completing the only milestone of
tier 0 levels up to tier 1 (whose stale progress is zeroed) in the
two-tier state, and reports `maxTierReached` with no further mutation
in the single-tier state. -/
theorem c4_tier_advancement_witness :
    (ProgressionService.addWorkoutProgress miniState miniWorkout).1 =
      ProgressResult.success ⟨"Mini A", 1, 1, true⟩
        (some (TierLevelUp.leveledUp 1 "Mini One")) ∧
    (ProgressionService.addWorkoutProgress miniState miniWorkout).2.athleteTier = 1 ∧
    (ProgressionService.addWorkoutProgress miniState miniWorkout).2.tierConfig.tiers[1]? =
      some miniTierOne.resetProgress ∧
    (ProgressionService.addWorkoutProgress miniState miniWorkout).2.tierConfig.tiers[0]? =
      some (workoutUpdatedTier miniTierZero "bronze") ∧
    (ProgressionService.addWorkoutProgress soloState miniWorkout).1 =
      ProgressResult.success ⟨"Mini A", 1, 1, true⟩ (some TierLevelUp.maxTierReached) ∧
    (ProgressionService.addWorkoutProgress soloState miniWorkout).2 =
      midEngineState soloState 0 (workoutUpdatedTier miniTierZero "bronze") := by
  have hmini := (c4_tier_advancement.2 miniState miniWorkout miniTierZero
    (Milestone.mk "bronze" "Mini A" 1 [] [] 0 [])
    (by decide) (by decide) (by decide) (by decide)).1 (by decide)
  have hsolo := (c4_tier_advancement.2 soloState miniWorkout miniTierZero
    (Milestone.mk "bronze" "Mini A" 1 [] [] 0 [])
    (by decide) (by decide) (by decide) (by decide)).2 (by decide)
  exact ⟨hmini.1, hmini.2.1, hmini.2.2.1, hmini.2.2.2.1, hsolo.1, hsolo.2⟩

/-! ### Re-triggering advancement on an already-complete tier -/

theorem addProgress_preserves_isCompleted (m : Milestone)
    (h : m.isCompleted = true) : ((m.addProgress 1).1).isCompleted = true := by
  by_cases hb : 0 < m.benchmarkWorkouts.length <;>
    simp [Milestone.addProgress, Milestone.isCompleted, Milestone.usesBenchmarks, hb]
      at h ⊢ <;>
    omega

theorem mem_updateFirstMilestone {l : List Milestone} {type : String}
    {f : Milestone → Milestone} {x : Milestone}
    (hx : x ∈ updateFirstMilestone l type f) :
    x ∈ l ∨ ∃ m, m ∈ l ∧ x = f m := by
  induction l with
  | nil => simp [updateFirstMilestone] at hx
  | cons m rest ih =>
    simp only [updateFirstMilestone] at hx
    by_cases h : m.type == type
    · rw [if_pos h] at hx
      rcases List.mem_cons.mp hx with rfl | hx
      · exact Or.inr ⟨m, List.mem_cons_self m rest, rfl⟩
      · exact Or.inl (List.mem_cons_of_mem _ hx)
    · rw [if_neg h] at hx
      rcases List.mem_cons.mp hx with rfl | hx
      · exact Or.inl (List.mem_cons_self _ _)
      · rcases ih hx with h1 | ⟨m0, hm0, rfl⟩
        · exact Or.inl (List.mem_cons_of_mem _ h1)
        · exact Or.inr ⟨m0, List.mem_cons_of_mem _ hm0, rfl⟩

/-- An already-complete tier stays complete after the event's
`addProgress(1)` mutation (clamped cumulative progress stays at the
cap; benchmark completion ignores the `progress` counter). -/
theorem workoutUpdatedTier_preserves_isCompleted (tier : Tier) (type : String)
    (hall : tier.isCompleted = true) :
    (workoutUpdatedTier tier type).isCompleted = true := by
  simp only [Tier.isCompleted, workoutUpdatedTier, List.all_eq_true] at hall ⊢
  intro m hm
  rcases mem_updateFirstMilestone hm with hmem | ⟨m0, hm0, rfl⟩
  · exact hall m hmem
  · exact addProgress_preserves_isCompleted m0 (hall m0 hm0)

/-- C10: an accepted ordinary workout event against a tier whose
milestones were already all complete keeps the targeted milestone's
progress clamped and reports `justCompleted = false`, yet runs the
tier-advancement path again: with a next tier present, that tier's
milestones are reset (discarding any progress made in it), the
athlete's tier pointer is rewritten to the next level, and `leveledUp`
is reported again. -/
theorem c10_advancement_retriggered :
    ∀ (s : EngineState) (w : Workout) (tier : Tier) (milestone : Milestone),
      s.tierConfig.getTierByLevel w.tier = some tier →
      tier.findMilestoneByType w.milestoneType = some milestone →
      milestone.acceptsWorkoutType w.type = true →
      tier.isCompleted = true →
      ∀ h : w.tier + 1 < s.tierConfig.tierCount,
        (ProgressionService.addWorkoutProgress s w).1 =
          ProgressResult.success
            ⟨(milestone.addProgress 1).1.name, (milestone.addProgress 1).1.progress,
              (milestone.addProgress 1).1.requiredWorkouts, false⟩
            (some (TierLevelUp.leveledUp (w.tier + 1)
              (s.tierConfig.tiers.get ⟨w.tier + 1, h⟩).name)) ∧
        (milestone.addProgress 1).1.progress ≤ milestone.requiredWorkouts ∧
        (ProgressionService.addWorkoutProgress s w).2.tierConfig.tiers[w.tier + 1]? =
          some (s.tierConfig.tiers.get ⟨w.tier + 1, h⟩).resetProgress ∧
        (ProgressionService.addWorkoutProgress s w).2.athleteTier = w.tier + 1 := by
  intro s w tier milestone htier hms hacc hall h
  have hdone := workoutUpdatedTier_preserves_isCompleted tier w.milestoneType hall
  have hwas : milestone.isCompleted = true := by
    have hmem := List.mem_of_find?_eq_some hms
    simpa using (List.all_eq_true.mp hall) milestone hmem
  have hgen := (addWorkoutProgress_complete_next s w tier milestone htier hms hacc hdone h)
  refine ⟨?_, ?_, hgen.2.2.1, hgen.2.1⟩
  · rw [hgen.1, hwas]
    rfl
  · simp only [Milestone.addProgress]
    exact min_le_right _ _

/-- The mini first tier with its only milestone already complete. -/
def miniCompletedTierZero : Tier :=
  ⟨0, "Mini Zero", [⟨"bronze", "Mini A", 1, [], [], 1, []⟩]⟩

/-- A state whose tier 0 was already fully complete before the event. -/
def miniCompletedState : EngineState := ⟨⟨[miniCompletedTierZero, miniTierOne]⟩, 1, none⟩

/-- Witness for C10: an ordinary workout against the already-complete
mini tier reports `justCompleted = false`, yet re-runs advancement —
resetting the next tier's stale progress and rewriting the athlete
pointer — and reports `leveledUp` again. -/
theorem c10_advancement_retriggered_witness :
    (ProgressionService.addWorkoutProgress miniCompletedState miniWorkout).1 =
      ProgressResult.success ⟨"Mini A", 1, 1, false⟩
        (some (TierLevelUp.leveledUp 1 "Mini One")) ∧
    ((Milestone.mk "bronze" "Mini A" 1 [] [] 1 []).addProgress 1).1.progress ≤
      (Milestone.mk "bronze" "Mini A" 1 [] [] 1 []).requiredWorkouts ∧
    (ProgressionService.addWorkoutProgress miniCompletedState miniWorkout).2.tierConfig.tiers[1]? =
      some miniTierOne.resetProgress ∧
    (ProgressionService.addWorkoutProgress miniCompletedState miniWorkout).2.athleteTier = 1 :=
  c10_advancement_retriggered miniCompletedState miniWorkout miniCompletedTierZero
    (Milestone.mk "bronze" "Mini A" 1 [] [] 1 [])
    (by decide) (by decide) (by decide) (by decide) (by decide)

/-! ### Mode is not checked by the ordinary-workout dispatch -/

/-- The tier-0 platinum milestone of the default catalog: benchmark
mode (two benchmark workouts) with an empty — hence accept-all —
`workoutRequirements` list. -/
def beginnerPlatinum : Milestone :=
  Milestone.new "platinum" "Consistent" 20 []
    [⟨"Endurance Challenge", [⟨"Running", 30⟩, ⟨"Push-ups", 20⟩], 40⟩,
      ⟨"Flexibility Test", [⟨"Yoga", 25⟩, ⟨"Stretching", 15⟩], 35⟩]

/-- C6 fails on the code: from the initial state the engine accepts an
ordinary `"Running"` workout event targeting the tier-0 platinum
milestone and dispatches `addProgress(1)` to it (progress moves from 0
to 1), although that milestone's `benchmarkWorkouts` list is non-empty
— `addWorkoutProgress` never branches on mode. -/
theorem c6_counterexample :
    (ProgressionService.addWorkoutProgress initialEngineState
        ⟨"Running", "platinum", 0⟩).1 =
      ProgressResult.success ⟨"Consistent", 1, 20, false⟩ none ∧
    initialEngineState.tierConfig.getTierByLevel 0 = some beginnerTier ∧
    beginnerTier.findMilestoneByType "platinum" = some beginnerPlatinum ∧
    beginnerPlatinum.benchmarkWorkouts.length = 2 := by
  refine ⟨?_, ?_, ?_, ?_⟩ <;> decide

/-- C6 amended: the engine does not branch on milestone mode.  An
ordinary workout event that resolves its tier and milestone is
accepted exactly when the milestone's `acceptsWorkoutType` passes, and
the accepted dispatch applies `addProgress(1)` to that milestone
whether or not it is benchmark-mode; an empty requirement list accepts
every workout type, and every benchmark-mode milestone of the default
catalog has an empty requirement list, so ordinary workouts against
catalog benchmark milestones are accepted.  (The mode branch lives in
the view-model caller, not in the engine.) -/
theorem c6_mode_not_checked :
    (∀ (s : EngineState) (w : Workout) (tier : Tier) (milestone : Milestone),
      s.tierConfig.getTierByLevel w.tier = some tier →
      tier.findMilestoneByType w.milestoneType = some milestone →
      ((∃ mp lu, (ProgressionService.addWorkoutProgress s w).1 =
        ProgressResult.success mp lu) ↔ milestone.acceptsWorkoutType w.type = true)) ∧
    (∀ (s : EngineState) (w : Workout) (tier : Tier) (milestone : Milestone),
      s.tierConfig.getTierByLevel w.tier = some tier →
      tier.findMilestoneByType w.milestoneType = some milestone →
      milestone.acceptsWorkoutType w.type = true →
      (ProgressionService.addWorkoutProgress s w).2.tierConfig.tiers[w.tier]? =
        some (workoutUpdatedTier tier w.milestoneType)) ∧
    (∀ m : Milestone, m.workoutRequirements = [] →
      ∀ workoutType, m.acceptsWorkoutType workoutType = true) ∧
    (∀ tier ∈ createDefaultTiers, ∀ m ∈ tier.milestones,
      m.usesBenchmarks = true → m.workoutRequirements = []) := by
  refine ⟨?_, ?_, ?_, ?_⟩
  · intro s w tier milestone htier hms
    constructor
    · rintro ⟨mp, lu, hres⟩
      by_cases hacc : milestone.acceptsWorkoutType w.type = true
      · exact hacc
      · have hfalse : milestone.acceptsWorkoutType w.type = false := by
          simpa using hacc
        have hrej := addWorkoutProgress_not_accepted s w tier milestone htier hms hfalse
        rw [hrej] at hres
        simp at hres
    · intro hacc
      have hunf := addWorkoutProgress_accepted s w tier milestone htier hms hacc
      by_cases hdone : (workoutUpdatedTier tier w.milestoneType).isCompleted = true
      · rw [if_pos hdone] at hunf
        rw [hunf]
        exact ⟨_, _, rfl⟩
      · rw [if_neg hdone] at hunf
        rw [hunf]
        exact ⟨_, _, rfl⟩
  · intro s w tier milestone htier hms hacc
    have hwlt : w.tier < s.tierConfig.tiers.length := getTierByLevel_lt _ _ _ htier
    by_cases hdone : (workoutUpdatedTier tier w.milestoneType).isCompleted = true
    · by_cases h : w.tier + 1 < s.tierConfig.tierCount
      · exact (addWorkoutProgress_complete_next s w tier milestone htier hms hacc
          hdone h).2.2.2.1
      · have hmax := (addWorkoutProgress_complete_max s w tier milestone htier hms hacc
          hdone (by omega)).2
        rw [hmax]
        show (s.tierConfig.tiers.set w.tier
            (workoutUpdatedTier tier w.milestoneType))[w.tier]? =
          some (workoutUpdatedTier tier w.milestoneType)
        exact List.getElem?_set_self hwlt
    · have hunf := addWorkoutProgress_accepted s w tier milestone htier hms hacc
      rw [if_neg hdone] at hunf
      rw [hunf]
      show (s.tierConfig.tiers.set w.tier
          (workoutUpdatedTier tier w.milestoneType))[w.tier]? =
        some (workoutUpdatedTier tier w.milestoneType)
      exact List.getElem?_set_self hwlt
  · intro m hreq workoutType
    simp [Milestone.acceptsWorkoutType, hreq]
  · decide

/-- Witness for the amended C6 at the initial state: the `"Running"`
event against the tier-0 platinum milestone is accepted (it exists and
accepts every type), `addProgress(1)` is dispatched to it, and the
catalog facts are instantiated at that milestone. -/
theorem c6_mode_not_checked_witness :
    (∃ mp lu, (ProgressionService.addWorkoutProgress initialEngineState
      ⟨"Running", "platinum", 0⟩).1 = ProgressResult.success mp lu) ∧
    (ProgressionService.addWorkoutProgress initialEngineState
        ⟨"Running", "platinum", 0⟩).2.tierConfig.tiers[0]? =
      some (workoutUpdatedTier beginnerTier "platinum") ∧
    beginnerPlatinum.acceptsWorkoutType "Running" = true ∧
    beginnerPlatinum.workoutRequirements = [] :=
  ⟨(c6_mode_not_checked.1 initialEngineState ⟨"Running", "platinum", 0⟩ beginnerTier
      beginnerPlatinum (by decide) (by decide)).mpr (by decide),
    c6_mode_not_checked.2.1 initialEngineState ⟨"Running", "platinum", 0⟩ beginnerTier
      beginnerPlatinum (by decide) (by decide) (by decide),
    c6_mode_not_checked.2.2.1 beginnerPlatinum (by decide) "Running",
    c6_mode_not_checked.2.2.2 beginnerTier (List.Mem.head _) beginnerPlatinum
      (by decide) (by decide)⟩

/-! ### The benchmark-set invariant -/

/-- The set invariant of `benchmarksCompleted`: no duplicate indices,
and every index is a valid position in `benchmarkWorkouts`. -/
def Milestone.benchmarkSetInvariant (m : Milestone) : Prop :=
  m.benchmarksCompleted.Nodup ∧
  ∀ i ∈ m.benchmarksCompleted, i < m.benchmarkWorkouts.length

/-- The set invariant over every milestone of a configuration. -/
def TierConfiguration.benchmarkSetInvariant (c : TierConfiguration) : Prop :=
  ∀ tier ∈ c.tiers, ∀ m ∈ tier.milestones, m.benchmarkSetInvariant

/-- The state-level invariant: the in-memory configuration and whatever
the persistence port currently holds (needed through the load path)
satisfy the set invariant. -/
def EngineState.benchmarkSetInvariant (s : EngineState) : Prop :=
  s.tierConfig.benchmarkSetInvariant ∧
  ∀ sp, s.saved = some sp →
    (TierConfiguration.fromJSON ⟨sp.tiers⟩).benchmarkSetInvariant

theorem benchmarkSetInvariant_of_empty (m : Milestone)
    (h : m.benchmarksCompleted = []) : m.benchmarkSetInvariant := by
  rw [Milestone.benchmarkSetInvariant, h]
  exact ⟨List.nodup_nil, by simp⟩

theorem new_config_invariant : TierConfiguration.new.benchmarkSetInvariant := by
  have h : ∀ tier ∈ createDefaultTiers, ∀ m ∈ tier.milestones,
      m.benchmarksCompleted = ([] : List Nat) := by decide
  intro tier htier m hm
  exact benchmarkSetInvariant_of_empty m (h tier htier m hm)

theorem addProgress_invariant (m : Milestone) (hinv : m.benchmarkSetInvariant) :
    ((m.addProgress 1).1).benchmarkSetInvariant := hinv

theorem completeBenchmark_invariant (m : Milestone) (i : Nat)
    (hinv : m.benchmarkSetInvariant) (hi : i < m.benchmarkWorkouts.length) :
    ((m.completeBenchmark i).1).benchmarkSetInvariant := by
  rcases hinv with ⟨hnd, hlt⟩
  unfold Milestone.benchmarkSetInvariant
  by_cases h : i ∈ m.benchmarksCompleted
  · simp only [Milestone.completeBenchmark]
    rw [if_pos (by simpa using h)]
    exact ⟨hnd, hlt⟩
  · simp only [Milestone.completeBenchmark]
    rw [if_neg (by simpa using h)]
    refine ⟨?_, ?_⟩
    · show (m.benchmarksCompleted ++ [i]).Nodup
      rw [List.nodup_append]
      exact ⟨hnd, List.nodup_singleton i, by simpa [List.disjoint_singleton] using h⟩
    · intro j hj
      have hj' : j ∈ m.benchmarksCompleted ++ [i] := hj
      show j < m.benchmarkWorkouts.length
      rcases List.mem_append.mp hj' with hj' | hj'
      · exact hlt j hj'
      · rcases List.mem_singleton.mp hj' with rfl
        exact hi

theorem reset_invariant (m : Milestone) : (m.reset).benchmarkSetInvariant :=
  benchmarkSetInvariant_of_empty _ rfl

theorem saveProgress_invariant (s : EngineState)
    (hc : s.tierConfig.benchmarkSetInvariant) :
    (saveProgress s).benchmarkSetInvariant := by
  refine ⟨hc, ?_⟩
  intro sp hsp
  have hsp' : sp = ⟨progressKey, s.tierConfig.toJSON.tiers⟩ := by
    simpa [saveProgress] using hsp.symm
  subst hsp'
  have hround : TierConfiguration.fromJSON ⟨s.tierConfig.toJSON.tiers⟩
      = s.tierConfig := config_fromJSON_toJSON s.tierConfig
  rw [hround]
  exact hc

/-- Rewriting the first matching milestone only touches the milestone
returned by `find?` with the same predicate. -/
theorem mem_updateFirstMilestone_find {l : List Milestone} {type : String}
    {f : Milestone → Milestone} {x milestone : Milestone}
    (hfind : l.find? (fun m => m.type == type) = some milestone)
    (hx : x ∈ updateFirstMilestone l type f) :
    x ∈ l ∨ x = f milestone := by
  induction l with
  | nil => simp [updateFirstMilestone] at hx
  | cons m rest ih =>
    simp only [updateFirstMilestone] at hx
    by_cases h : m.type == type
    · rw [@List.find?_cons_of_pos _ (fun m => m.type == type) m rest h] at hfind
      injection hfind with hfind
      subst hfind
      rw [if_pos h] at hx
      rcases List.mem_cons.mp hx with rfl | hx
      · exact Or.inr rfl
      · exact Or.inl (List.mem_cons_of_mem _ hx)
    · rw [@List.find?_cons_of_neg _ (fun m => m.type == type) m rest h] at hfind
      rw [if_neg h] at hx
      rcases List.mem_cons.mp hx with rfl | hx
      · exact Or.inl (List.mem_cons_self _ _)
      · rcases ih hfind hx with h1 | h1
        · exact Or.inl (List.mem_cons_of_mem _ h1)
        · exact Or.inr h1

theorem checkTierLevelUp_state_invariant (s : EngineState) (lvl : Nat)
    (hs : EngineState.benchmarkSetInvariant s) :
    EngineState.benchmarkSetInvariant (ProgressionService.checkTierLevelUp s lvl).2 := by
  by_cases h : lvl + 1 < s.tierConfig.tierCount
  · rw [checkTierLevelUp_next s lvl h]
    apply saveProgress_invariant
    intro tier htier m hm
    rcases List.mem_or_eq_of_mem_set htier with hmem | rfl
    · exact hs.1 tier hmem m hm
    · simp only [Tier.resetProgress] at hm
      rcases List.mem_map.mp hm with ⟨a, _, rfl⟩
      exact reset_invariant a
  · rw [checkTierLevelUp_max s lvl (by omega)]
    exact hs

theorem midEngineState_invariant (s : EngineState) (w : Workout) (tier' : Tier)
    (hs : EngineState.benchmarkSetInvariant s)
    (htier' : ∀ m ∈ tier'.milestones, m.benchmarkSetInvariant) :
    EngineState.benchmarkSetInvariant (midEngineState s w.tier tier') := by
  apply saveProgress_invariant
  intro t ht m hm
  rcases List.mem_or_eq_of_mem_set ht with hmem | rfl
  · exact hs.1 t hmem m hm
  · exact htier' m hm

theorem addWorkoutProgress_state_invariant (s : EngineState) (w : Workout)
    (hs : EngineState.benchmarkSetInvariant s) :
    EngineState.benchmarkSetInvariant (ProgressionService.addWorkoutProgress s w).2 := by
  cases htier : s.tierConfig.getTierByLevel w.tier with
  | none => rw [addWorkoutProgress_no_tier s w htier]; exact hs
  | some tier =>
    cases hms : tier.findMilestoneByType w.milestoneType with
    | none => rw [addWorkoutProgress_no_milestone s w tier htier hms]; exact hs
    | some milestone =>
      by_cases hacc : milestone.acceptsWorkoutType w.type = true
      · have htmem : tier ∈ s.tierConfig.tiers := by
          simp only [TierConfiguration.getTierByLevel] at htier
          exact List.getElem?_mem htier
        have hmid : EngineState.benchmarkSetInvariant
            (midEngineState s w.tier (workoutUpdatedTier tier w.milestoneType)) := by
          apply midEngineState_invariant s w _ hs
          intro m hm
          simp only [workoutUpdatedTier] at hm
          rcases mem_updateFirstMilestone_find hms hm with hmem | rfl
          · exact hs.1 tier htmem m hmem
          · exact addProgress_invariant milestone (hs.1 tier htmem milestone
              (List.mem_of_find?_eq_some hms))
        have hunf := addWorkoutProgress_accepted s w tier milestone htier hms hacc
        by_cases hdone : (workoutUpdatedTier tier w.milestoneType).isCompleted = true
        · rw [if_pos hdone] at hunf
          rw [hunf]
          exact checkTierLevelUp_state_invariant _ _ hmid
        · rw [if_neg hdone] at hunf
          rw [hunf]
          exact hmid
      · have hfalse : milestone.acceptsWorkoutType w.type = false := by simpa using hacc
        rw [addWorkoutProgress_not_accepted s w tier milestone htier hms hfalse]
        exact hs

/-! ### The engine's benchmark path (spec-modelled), unfolded -/

theorem completeBenchmark_no_tier (s : EngineState) (w : Workout) (i : Nat)
    (htier : s.tierConfig.getTierByLevel w.tier = none) :
    ProgressionService.completeBenchmark s w i =
      (ProgressResult.failure "Invalid tier", s) := by
  unfold ProgressionService.completeBenchmark
  simp only [htier]

theorem completeBenchmark_no_milestone (s : EngineState) (w : Workout) (i : Nat)
    (tier : Tier) (htier : s.tierConfig.getTierByLevel w.tier = some tier)
    (hms : tier.findMilestoneByType w.milestoneType = none) :
    ProgressionService.completeBenchmark s w i =
      (ProgressResult.failure "Invalid milestone", s) := by
  unfold ProgressionService.completeBenchmark
  simp only [htier, hms]

theorem completeBenchmark_invalid_index (s : EngineState) (w : Workout) (i : Nat)
    (tier : Tier) (milestone : Milestone)
    (htier : s.tierConfig.getTierByLevel w.tier = some tier)
    (hms : tier.findMilestoneByType w.milestoneType = some milestone)
    (hi : milestone.benchmarkWorkouts.length ≤ i) :
    ProgressionService.completeBenchmark s w i =
      (ProgressResult.failure "Invalid benchmark index", s) := by
  unfold ProgressionService.completeBenchmark
  simp only [htier, hms]
  rw [if_pos hi]

theorem completeBenchmark_valid (s : EngineState) (w : Workout) (i : Nat)
    (tier : Tier) (milestone : Milestone)
    (htier : s.tierConfig.getTierByLevel w.tier = some tier)
    (hms : tier.findMilestoneByType w.milestoneType = some milestone)
    (hi : i < milestone.benchmarkWorkouts.length) :
    ProgressionService.completeBenchmark s w i =
      (if (benchmarkUpdatedTier tier w.milestoneType i).isCompleted then
        (ProgressResult.success
            ⟨(milestone.completeBenchmark i).1.name,
              (milestone.completeBenchmark i).1.benchmarksCompleted.length,
              (milestone.completeBenchmark i).1.benchmarkWorkouts.length,
              !milestone.isCompleted && (milestone.completeBenchmark i).1.isCompleted⟩
          (some (ProgressionService.checkTierLevelUp
              (midEngineState s w.tier (benchmarkUpdatedTier tier w.milestoneType i))
              w.tier).1),
          (ProgressionService.checkTierLevelUp
            (midEngineState s w.tier (benchmarkUpdatedTier tier w.milestoneType i))
            w.tier).2)
      else
        (ProgressResult.success
            ⟨(milestone.completeBenchmark i).1.name,
              (milestone.completeBenchmark i).1.benchmarksCompleted.length,
              (milestone.completeBenchmark i).1.benchmarkWorkouts.length,
              !milestone.isCompleted && (milestone.completeBenchmark i).1.isCompleted⟩
          none,
          midEngineState s w.tier (benchmarkUpdatedTier tier w.milestoneType i))) := by
  unfold ProgressionService.completeBenchmark
  simp only [htier, hms]
  rw [if_neg (by omega)]

theorem completeBenchmark_state_invariant (s : EngineState) (w : Workout) (i : Nat)
    (hs : EngineState.benchmarkSetInvariant s) :
    EngineState.benchmarkSetInvariant (ProgressionService.completeBenchmark s w i).2 := by
  cases htier : s.tierConfig.getTierByLevel w.tier with
  | none => rw [completeBenchmark_no_tier s w i htier]; exact hs
  | some tier =>
    cases hms : tier.findMilestoneByType w.milestoneType with
    | none => rw [completeBenchmark_no_milestone s w i tier htier hms]; exact hs
    | some milestone =>
      by_cases hi : i < milestone.benchmarkWorkouts.length
      · have htmem : tier ∈ s.tierConfig.tiers := by
          simp only [TierConfiguration.getTierByLevel] at htier
          exact List.getElem?_mem htier
        have hmid : EngineState.benchmarkSetInvariant
            (midEngineState s w.tier (benchmarkUpdatedTier tier w.milestoneType i)) := by
          apply midEngineState_invariant s w _ hs
          intro m hm
          simp only [benchmarkUpdatedTier] at hm
          rcases mem_updateFirstMilestone_find hms hm with hmem | rfl
          · exact hs.1 tier htmem m hmem
          · exact completeBenchmark_invariant milestone i
              (hs.1 tier htmem milestone (List.mem_of_find?_eq_some hms)) hi
        have hunf := completeBenchmark_valid s w i tier milestone htier hms hi
        by_cases hdone : (benchmarkUpdatedTier tier w.milestoneType i).isCompleted = true
        · rw [if_pos hdone] at hunf
          rw [hunf]
          exact checkTierLevelUp_state_invariant _ _ hmid
        · rw [if_neg hdone] at hunf
          rw [hunf]
          exact hmid
      · rw [completeBenchmark_invalid_index s w i tier milestone htier hms (by omega)]
        exact hs

theorem resetAllProgress_state_invariant (s : EngineState) :
    EngineState.benchmarkSetInvariant (ProgressionService.resetAllProgress s) :=
  saveProgress_invariant { s with tierConfig := TierConfiguration.new }
    new_config_invariant

theorem initialize_state_invariant (s : EngineState)
    (hs : EngineState.benchmarkSetInvariant s) :
    EngineState.benchmarkSetInvariant (ProgressionService.initializeFromStorage s) := by
  unfold ProgressionService.initializeFromStorage
  cases hsv : s.saved with
  | none => exact hs
  | some sp => exact ⟨hs.2 sp hsv, fun sp' hsp' => hs.2 sp' (hsv.trans hsp')⟩

/-- Every engine-reachable state satisfies the strengthened
benchmark-set invariant. -/
theorem reachable_invariant (s : EngineState) (h : Reachable s) :
    EngineState.benchmarkSetInvariant s := by
  induction h with
  | init =>
    exact ⟨new_config_invariant, fun sp hsp => by simp [initialEngineState] at hsp⟩
  | workout s w _ ih => exact addWorkoutProgress_state_invariant s w ih
  | benchmark s w i _ ih => exact completeBenchmark_state_invariant s w i ih
  | reset s _ _ => exact resetAllProgress_state_invariant s
  | load s _ ih => exact initialize_state_invariant s ih

/-- C5: in every engine-reachable state, each milestone's
`benchmarksCompleted` is a duplicate-free set whose every element is a
valid index into its `benchmarkWorkouts`; and the engine's benchmark
path validates the event's index before dispatching
`completeBenchmark(index)`, failing with the invalid-benchmark-index
condition and leaving the state untouched when the index is out of
range. -/
theorem c5_benchmark_set_invariant :
    (∀ s : EngineState, Reachable s →
      ∀ tier ∈ s.tierConfig.tiers, ∀ m ∈ tier.milestones,
        m.benchmarksCompleted.Nodup ∧
        ∀ i ∈ m.benchmarksCompleted, i < m.benchmarkWorkouts.length) ∧
    (∀ (s : EngineState) (w : Workout) (i : Nat) (tier : Tier)
      (milestone : Milestone),
      s.tierConfig.getTierByLevel w.tier = some tier →
      tier.findMilestoneByType w.milestoneType = some milestone →
      milestone.benchmarkWorkouts.length ≤ i →
      ProgressionService.completeBenchmark s w i =
        (ProgressResult.failure "Invalid benchmark index", s)) :=
  ⟨fun s hr => (reachable_invariant s hr).1,
    fun s w i tier milestone htier hms hi =>
      completeBenchmark_invalid_index s w i tier milestone htier hms hi⟩

/-- Witness for C5: the invariant instantiated at the reachable initial
state, and a concrete out-of-range benchmark index (99 against the
two-benchmark tier-0 platinum milestone) rejected without state
change. -/
theorem c5_benchmark_set_invariant_witness :
    (∀ tier ∈ initialEngineState.tierConfig.tiers, ∀ m ∈ tier.milestones,
      m.benchmarksCompleted.Nodup ∧
      ∀ i ∈ m.benchmarksCompleted, i < m.benchmarkWorkouts.length) ∧
    ProgressionService.completeBenchmark initialEngineState
        ⟨"Endurance Challenge", "platinum", 0⟩ 99 =
      (ProgressResult.failure "Invalid benchmark index", initialEngineState) :=
  ⟨c5_benchmark_set_invariant.1 initialEngineState Reachable.init,
    c5_benchmark_set_invariant.2 initialEngineState
      ⟨"Endurance Challenge", "platinum", 0⟩ 99 beginnerTier beginnerPlatinum
      (by decide) (by decide) (by decide)⟩

end F17n355
